import Mathlib

/-!
Verification of the snow-drift computation pages of the repository
(`streamlit/pages/C1_SnowDrift.py`, with the older variant
`streamlit/pages/SnowDrift.py` where the two differ).

Embedding conventions:
* Python floats are modelled as exact rationals (`ℚ`); the verified
  properties are arithmetic/structural identities, not rounding facts.
* The two transcendental real powers appearing in the source,
  `u ** 3.8` (wind power) and `0.14 ** (F / T)` / `x ** (1 / 2.2)`
  (Tabler decay and fence-height power laws), are not rational-valued,
  so they are abstracted as explicit function parameters (`p38`,
  `pow014`, `hpow`); every theorem below holds for an arbitrary such
  function, which is exactly the generality of the claims considered.
* Fallible Python operations are modelled in `Option`: a list index
  assignment that would raise `IndexError` and a `raise ValueError`
  both become `none`.
* Python `%` on floats with a positive divisor is the mathematical
  modulus `a - b * ⌊a / b⌋`, `//` is floor division, and `int` applied
  to the (non-negative, integer-valued) result of `//` is exact, so
  `sector_index` lands in `ℤ` via `Int.floor`.
-/

/-- A parsed timestamp, as produced by `pd.to_datetime` on the `time`
column; only the fields the computations inspect are kept. -/
structure Timestamp where
  year : ℤ
  month : ℕ
  day : ℕ
deriving DecidableEq, Repr

/-- One row of the hourly ERA5 dataframe fetched by `fetch_era5_hourly`. -/
structure HourlyRow where
  time : Timestamp
  temperature_2m : ℚ
  precipitation : ℚ
  windspeed_10m : ℚ
  winddirection_10m : ℚ
deriving DecidableEq, Repr

/-- Season key of a timestamp: `dt.year if dt.month >= 7 else dt.year - 1`
(line 98 of `C1_SnowDrift.py`). -/
def season_year (t : Timestamp) : ℤ :=
  if 7 ≤ t.month then t.year else t.year - 1

/-- Hourly snow-water equivalent: `np.where(temperature_2m < 1.0, precipitation, 0.0)`
(lines 109–113 of `C1_SnowDrift.py`). -/
def Swe_hourly (r : HourlyRow) : ℚ :=
  if r.temperature_2m < 1 then r.precipitation else 0

/-- Python float modulus for a positive divisor: `a % b = a - b * ⌊a / b⌋`. -/
def pymod (a b : ℚ) : ℚ :=
  a - b * ⌊a / b⌋

/-- `sector_index(direction) = int(((direction + 11.25) % 360) // 22.5)`
(lines 59–60 of `C1_SnowDrift.py`).  The `//` is floor division and the
outer `int` truncates an already integral non-negative float, so the
value is the floor of the quotient. -/
def sector_index (direction : ℚ) : ℤ :=
  ⌊pymod (direction + 11.25) 360 / 22.5⌋

/-- `compute_Qupot(hourly_wind_speeds, dt=3600)`: the sum of
`(u ** 3.8) * dt` over the speeds, divided by `233_847`
(lines 55–57 of `C1_SnowDrift.py`); the spec calls this operation
`compute_wind_power_transport`.  `p38` abstracts `u ↦ u ** 3.8`. -/
def compute_Qupot (p38 : ℚ → ℚ) (hourly_wind_speeds : List ℚ) (dt : ℚ) : ℚ :=
  (hourly_wind_speeds.map (fun u => p38 u * dt)).sum / 233847

/-- Python list index assignment `sectors[i] += x`: succeeds exactly when
`0 ≤ i < len(sectors)` (negative indices below `-len` and too-large
indices raise `IndexError`; the source never produces a negative index,
and we model the Python negative-index wrap-around as out of range since
it is unreachable here and `sector_index` is proved non-negative). -/
def addToSector (sectors : List ℚ) (i : ℤ) (x : ℚ) : Option (List ℚ) :=
  if h : 0 ≤ i ∧ i.toNat < sectors.length then
    some (sectors.set i.toNat (sectors.get ⟨i.toNat, h.2⟩ + x))
  else
    none

/-- The accumulation loop of `compute_sector_transport`
(lines 64–66 of `C1_SnowDrift.py`). -/
def sectorLoop (p38 : ℚ → ℚ) (dt : ℚ) : List (ℚ × ℚ) → List ℚ → Option (List ℚ)
  | [], sectors => some sectors
  | (u, d) :: rest, sectors =>
      (addToSector sectors (sector_index d) (p38 u * dt / 233847)).bind
        (sectorLoop p38 dt rest)

/-- `compute_sector_transport(hourly_wind_speeds, hourly_wind_dirs, dt=3600)`
(lines 62–67 of `C1_SnowDrift.py`): starts from `[0.0] * 16` and adds
`(u ** 3.8) * dt / 233_847` to bucket `sector_index(d)` for each pair
produced by `zip`. -/
def compute_sector_transport (p38 : ℚ → ℚ) (hourly_wind_speeds hourly_wind_dirs : List ℚ)
    (dt : ℚ) : Option (List ℚ) :=
  sectorLoop p38 dt (hourly_wind_speeds.zip hourly_wind_dirs) (List.replicate 16 0)

/-- Specification-side description of one bucket: the sum of the
contributions of exactly those pairs whose direction falls in sector `i`. -/
def bucketSum (p38 : ℚ → ℚ) (dt : ℚ) (pairs : List (ℚ × ℚ)) (i : ℤ) : ℚ :=
  ((pairs.filter (fun ud => sector_index ud.2 = i)).map
    (fun ud => p38 ud.1 * dt / 233847)).sum

/-- The `Control` value of a snow-transport result. -/
inductive Control where
  | snowfallControlled
  | windControlled
deriving DecidableEq, Repr

/-- Result record of `compute_snow_transport` (lines 83–90 of
`C1_SnowDrift.py`). -/
structure SnowTransportResult where
  Qupot : ℚ
  Qspot : ℚ
  Srwe : ℚ
  Qinf : ℚ
  Qt : ℚ
  control : Control
deriving DecidableEq, Repr

/-- `compute_snow_transport(T, F, theta, Swe, hourly_wind_speeds, dt=3600)`
(lines 69–90 of `C1_SnowDrift.py`).  `pow014` abstracts `x ↦ 0.14 ** x`,
applied at `F / T`. -/
def compute_snow_transport (p38 pow014 : ℚ → ℚ) (T F theta Swe : ℚ)
    (hourly_wind_speeds : List ℚ) (dt : ℚ) : SnowTransportResult :=
  let Qupot := compute_Qupot p38 hourly_wind_speeds dt
  let Qspot := 0.5 * T * Swe
  let Srwe := theta * Swe
  let Qinf := if Qupot > Qspot then 0.5 * T * Srwe else Qupot
  let control := if Qupot > Qspot then Control.snowfallControlled else Control.windControlled
  let Qt := Qinf * (1 - pow014 (F / T))
  { Qupot := Qupot, Qspot := Qspot, Srwe := Srwe, Qinf := Qinf, Qt := Qt, control := control }

/-- Python `str.lower()`, modelled as charwise lowercasing (Lean's
`String.toLower` is the same character map; this formulation reduces in
the kernel, and the two agree on the ASCII strings involved here). -/
def pyLower (s : String) : String :=
  ⟨s.data.map Char.toLower⟩

/-- `compute_fence_height(Qt, fence_type)` of `C1_SnowDrift.py`
(lines 160–172; `8_SnowDrift.py` lines 180–196 are identical): factor
lookup by lowercased fence type, `raise ValueError` (modelled as `none`)
for any unrecognized value.  `hpow` abstracts `x ↦ x ** (1 / 2.2)`. -/
def compute_fence_height (hpow : ℚ → ℚ) (Qt : ℚ) (fence_type : String) : Option ℚ :=
  let Qt_tonnes := Qt / 1000
  let ft := pyLower fence_type
  if ft = "wyoming" then some (hpow (Qt_tonnes / 8.5))
  else if ft = "slat-and-wire" ∨ ft = "slat and wire" then some (hpow (Qt_tonnes / 7.7))
  else if ft = "solid" then some (hpow (Qt_tonnes / 2.9))
  else none

namespace SnowDriftPage

/-- `compute_fence_height(Qt, fence_type)` of the older variant
`SnowDrift.py` (lines 67–71): `factors.get(fence_type.lower(), 8.5)`
silently falls back to the Wyoming factor `8.5` for any unrecognized
fence type (and its dictionary has no `"slat and wire"` spelling). -/
def compute_fence_height (hpow : ℚ → ℚ) (Qt : ℚ) (fence_type : String) : ℚ :=
  let Qt_t := Qt / 1000
  let f :=
    if pyLower fence_type = "wyoming" then (8.5 : ℚ)
    else if pyLower fence_type = "slat-and-wire" then 7.7
    else if pyLower fence_type = "solid" then 2.9
    else 8.5
  hpow (Qt_t / f)

end SnowDriftPage

/-- Insertion into a sorted list, used to model the sorted key order of
`pandas.groupby`. -/
def insertSorted {α : Type} [LinearOrder α] (x : α) : List α → List α
  | [] => [x]
  | y :: ys => if x ≤ y then x :: y :: ys else y :: insertSorted x ys

/-- Insertion sort on keys (ascending), as `pandas.groupby` iterates
groups in sorted key order. -/
def sortKeys {α : Type} [LinearOrder α] : List α → List α
  | [] => []
  | x :: xs => insertSorted x (sortKeys xs)

/-- `df.groupby(key)`: one group per distinct key, iterated in sorted key
order, each group holding the rows with that key in their original order. -/
def groupByKey {κ : Type} [LinearOrder κ] (key : HourlyRow → κ) (rows : List HourlyRow) :
    List (κ × List HourlyRow) :=
  (sortKeys ((rows.map key).dedup)).map
    (fun k => (k, rows.filter (fun r => decide (key r = k))))

/-- `df.groupby("season_year")` (line 104 of `C1_SnowDrift.py`). -/
def groupBySeason (rows : List HourlyRow) : List (ℤ × List HourlyRow) :=
  groupByKey (fun r => season_year r.time) rows

/-- `df_season.groupby("month")` (line 123 of `C1_SnowDrift.py`). -/
def groupByMonth (rows : List HourlyRow) : List (ℕ × List HourlyRow) :=
  groupByKey (fun r => r.time.month) rows

/-- The season label `f"{s}-{s + 1}"` (line 119 of `C1_SnowDrift.py`). -/
def seasonLabel (s : ℤ) : String :=
  toString s ++ "-" ++ toString (s + 1)

/-- One row of the yearly output of `compute_year_and_month_results`:
the transport record plus the `season` label (lines 118–120). -/
structure SeasonalResult where
  season : String
  res : SnowTransportResult
deriving DecidableEq, Repr

/-- One row of the monthly output of `compute_year_and_month_results`:
the transport record plus `season` label and `month` (lines 129–132). -/
structure MonthlyResult where
  season : String
  month : ℕ
  res : SnowTransportResult
deriving DecidableEq, Repr

/-- `compute_year_and_month_results(df, T, F, theta)`
(lines 92–136 of `C1_SnowDrift.py`); the spec calls the whole step
`compute_seasonal`.  For each season group (skipped when empty, mirroring
`if df_season.empty: continue`): a yearly record over the whole season,
then for each month group a monthly record, skipped when
`Swe_m == 0 or len(ws_m) == 0`. -/
def compute_year_and_month_results (p38 pow014 : ℚ → ℚ) (rows : List HourlyRow)
    (T F theta : ℚ) : List SeasonalResult × List MonthlyResult :=
  let groups := (groupBySeason rows).filter (fun g => !g.2.isEmpty)
  let yearly := groups.map (fun g =>
    { season := seasonLabel g.1,
      res := compute_snow_transport p38 pow014 T F theta
        ((g.2.map Swe_hourly).sum) (g.2.map HourlyRow.windspeed_10m) 3600 })
  let monthly := groups.flatMap (fun g =>
    (groupByMonth g.2).filterMap (fun mg =>
      let Swe_m := (mg.2.map Swe_hourly).sum
      let ws_m := mg.2.map HourlyRow.windspeed_10m
      if Swe_m = 0 ∨ ws_m = [] then none
      else some { season := seasonLabel g.1, month := mg.1,
                  res := compute_snow_transport p38 pow014 T F theta Swe_m ws_m 3600 }))
  (yearly, monthly)

/-- Elementwise mean of a list of 16-entry profiles:
`np.mean(sectors_list, axis=0)`. -/
def meanProfiles (ls : List (List ℚ)) : List ℚ :=
  (List.range 16).map (fun i => (ls.map (fun l => l.getD i 0)).sum / ls.length)

/-- `compute_average_sector(df)` (lines 138–158 of `C1_SnowDrift.py`):
one 16-sector profile per season (from all of that season's wind
samples, `dt` left at its default `3600`), then the unweighted
elementwise mean across seasons; `np.zeros(16)` when there are no
seasons.  (The function also computes `Swe_hourly` per season but never
uses it, so that dead step is not modelled.) -/
def compute_average_sector (p38 : ℚ → ℚ) (rows : List HourlyRow) : Option (List ℚ) :=
  ((groupBySeason rows).mapM (fun g =>
      compute_sector_transport p38 (g.2.map HourlyRow.windspeed_10m)
        (g.2.map HourlyRow.winddirection_10m) 3600)).map
    (fun sectors_list =>
      if sectors_list.isEmpty then List.replicate 16 0 else meanProfiles sectors_list)

/-- Lexicographic order on timestamps (dates; the hour is irrelevant to
the season computations). -/
def dateLE (a b : Timestamp) : Prop :=
  a.year < b.year ∨ (a.year = b.year ∧
    (a.month < b.month ∨ (a.month = b.month ∧ a.day ≤ b.day)))

instance (a b : Timestamp) : Decidable (dateLE a b) := by
  unfold dateLE
  infer_instance

/-- The rows of `rows` belonging to season `s` and calendar month `m` —
the data one (season, month) group of `compute_year_and_month_results`
is computed from. -/
def seasonMonthRows (rows : List HourlyRow) (s : ℤ) (m : ℕ) : List HourlyRow :=
  rows.filter (fun r => decide (r.time.month = m) && decide (season_year r.time = s))

/-- Specification-side description of the whole 16-sector profile: entry
`i` is the total contribution of the pairs whose direction falls in
sector `i`. -/
def bucketProfile (p38 : ℚ → ℚ) (dt : ℚ) (pairs : List (ℚ × ℚ)) : List ℚ :=
  (List.range 16).map (fun (i : ℕ) => bucketSum p38 dt pairs (i : ℤ))

/-- A cold December hour with snowfall, used as concrete witness data. -/
def sampleRowDec : HourlyRow :=
  { time := { year := 2020, month := 12, day := 15 },
    temperature_2m := 0, precipitation := 2, windspeed_10m := 5, winddirection_10m := 0 }

/-- A warm July hour, used as concrete witness data. -/
def sampleRowJul : HourlyRow :=
  { time := { year := 2020, month := 7, day := 1 },
    temperature_2m := 10, precipitation := 1, windspeed_10m := 5, winddirection_10m := 0 }

/-- A cold June hour of the following calendar year, used as concrete
witness data. -/
def sampleRowJun : HourlyRow :=
  { time := { year := 2021, month := 6, day := 30 },
    temperature_2m := 0, precipitation := 1, windspeed_10m := 3, winddirection_10m := 90 }

/-! ### Basic lemmas about the Python modulus and `sector_index` -/

theorem pymod_nonneg (a b : ℚ) (hb : 0 < b) : 0 ≤ pymod a b := by
  have h : (⌊a / b⌋ : ℚ) ≤ a / b := Int.floor_le _
  have := mul_le_mul_of_nonneg_left h (le_of_lt hb)
  rw [mul_div_cancel₀ _ (ne_of_gt hb)] at this
  simpa [pymod] using this

theorem pymod_lt (a b : ℚ) (hb : 0 < b) : pymod a b < b := by
  have h : a / b < ⌊a / b⌋ + 1 := Int.lt_floor_add_one _
  have := mul_lt_mul_of_pos_left h hb
  rw [mul_div_cancel₀ _ (ne_of_gt hb)] at this
  simp only [pymod]
  linarith

theorem sector_index_nonneg (d : ℚ) : 0 ≤ sector_index d := by
  have h := pymod_nonneg (d + 11.25) 360 (by norm_num)
  have : (0 : ℚ) ≤ pymod (d + 11.25) 360 / 22.5 := by positivity
  exact Int.floor_nonneg.mpr this

theorem sector_index_lt (d : ℚ) : sector_index d < 16 := by
  have h := pymod_lt (d + 11.25) 360 (by norm_num)
  have : pymod (d + 11.25) 360 / 22.5 < 16 := by
    rw [div_lt_iff₀ (by norm_num : (0:ℚ) < 22.5)]
    linarith
  exact Int.floor_lt.mpr (by exact_mod_cast this)

/-! ### The sector-accumulation loop -/

theorem sum_map_div (l : List ℚ) (f : ℚ → ℚ) (c : ℚ) :
    (l.map f).sum / c = (l.map (fun x => f x / c)).sum := by
  induction l with
  | nil => simp
  | cons x xs ih => simp [add_div, ih]

theorem bucketSum_cons (p38 : ℚ → ℚ) (dt : ℚ) (u d : ℚ) (rest : List (ℚ × ℚ)) (i : ℤ) :
    bucketSum p38 dt ((u, d) :: rest) i =
      (if sector_index d = i then p38 u * dt / 233847 else 0) + bucketSum p38 dt rest i := by
  simp only [bucketSum, List.filter_cons]
  by_cases h : sector_index d = i <;> simp [h]

theorem sectorLoop_spec (p38 : ℚ → ℚ) (dt : ℚ) (pairs : List (ℚ × ℚ)) (sectors : List ℚ)
    (hlen : sectors.length = 16) :
    ∃ l, sectorLoop p38 dt pairs sectors = some l ∧ l.length = 16 ∧
      l.sum = sectors.sum + (pairs.map (fun ud => p38 ud.1 * dt / 233847)).sum ∧
      ∀ i : ℤ, 0 ≤ i → i < 16 →
        l.getD i.toNat 0 = sectors.getD i.toNat 0 + bucketSum p38 dt pairs i := by
  induction pairs generalizing sectors with
  | nil =>
    exact ⟨sectors, rfl, hlen, by simp, fun i _ _ => by simp [bucketSum]⟩
  | cons ud rest ih =>
    obtain ⟨u, d⟩ := ud
    have hj0 : 0 ≤ sector_index d := sector_index_nonneg d
    have hj16 : sector_index d < 16 := sector_index_lt d
    have hjn : (sector_index d).toNat < sectors.length := by omega
    set x := p38 u * dt / 233847 with hx
    set j := (sector_index d).toNat with hjdef
    have hadd : addToSector sectors (sector_index d) x =
        some (sectors.set j (sectors.get ⟨j, hjn⟩ + x)) := by
      rw [addToSector, dif_pos ⟨hj0, hjn⟩]
    have hlen2 : (sectors.set j (sectors.get ⟨j, hjn⟩ + x)).length = 16 := by
      simp [hlen]
    obtain ⟨l, hl, hl16, hlsum, hlbuck⟩ := ih (sectors.set j (sectors.get ⟨j, hjn⟩ + x)) hlen2
    refine ⟨l, ?_, hl16, ?_, ?_⟩
    · rw [sectorLoop, hadd, Option.some_bind]
      exact hl
    · rw [List.map_cons, List.sum_cons, hlsum, List.sum_set', dif_pos hjn]
      simp only [List.get_eq_getElem]
      ring
    · intro i hi0 hi16
      rw [hlbuck i hi0 hi16, bucketSum_cons]
      by_cases hij : sector_index d = i
      · have hijn : i.toNat = j := by omega
        rw [if_pos hij, hijn]
        have : (sectors.set j (sectors.get ⟨j, hjn⟩ + x)).getD j 0 =
            sectors.get ⟨j, hjn⟩ + x := by
          rw [List.getD_eq_getElem?_getD, List.getElem?_set_eq_of_lt _ hjn]
          rfl
        rw [this]
        have : sectors.getD j 0 = sectors.get ⟨j, hjn⟩ := by
          rw [List.getD_eq_getElem?_getD, List.getElem?_eq_getElem hjn]
          rfl
        rw [this]
        ring
      · have hijn : i.toNat ≠ j := by omega
        rw [if_neg hij]
        have : (sectors.set j (sectors.get ⟨j, hjn⟩ + x)).getD i.toNat 0 =
            sectors.getD i.toNat 0 := by
          rw [List.getD_eq_getElem?_getD, List.getElem?_set_ne (Ne.symm hijn),
            List.getD_eq_getElem?_getD]
        rw [this]
        ring

theorem compute_sector_transport_spec (p38 : ℚ → ℚ) (ws wd : List ℚ) (dt : ℚ) :
    ∃ l, compute_sector_transport p38 ws wd dt = some l ∧ l.length = 16 ∧
      l.sum = ((ws.zip wd).map (fun ud => p38 ud.1 * dt / 233847)).sum ∧
      ∀ i : ℤ, 0 ≤ i → i < 16 → l.getD i.toNat 0 = bucketSum p38 dt (ws.zip wd) i := by
  obtain ⟨l, hl, h16, hsum, hbuck⟩ :=
    sectorLoop_spec p38 dt (ws.zip wd) (List.replicate 16 0) (by simp)
  refine ⟨l, hl, h16, ?_, ?_⟩
  · rw [hsum]
    simp
  · intro i h0 h16i
    rw [hbuck i h0 h16i, List.getD_eq_getElem?_getD, List.getElem?_replicate]
    have hi : i.toNat < 16 := by omega
    simp [hi]

theorem zip_take_min {α β : Type} (l1 : List α) (l2 : List β) :
    l1.zip l2 = (l1.take (min l1.length l2.length)).zip (l2.take (min l1.length l2.length)) := by
  induction l1 generalizing l2 with
  | nil => simp
  | cons a as ih =>
    cases l2 with
    | nil => simp
    | cons b bs =>
      rw [List.length_cons, List.length_cons, Nat.succ_min_succ, List.take_succ_cons,
        List.take_succ_cons, List.zip_cons_cons, List.zip_cons_cons, ← ih]

theorem pymod_eq_self (a b : ℚ) (hb : 0 < b) (h0 : 0 ≤ a) (h1 : a < b) : pymod a b = a := by
  have hfl : ⌊a / b⌋ = 0 := by
    rw [Int.floor_eq_zero_iff]
    constructor
    · positivity
    · rwa [div_lt_one hb]
  simp [pymod, hfl]

theorem pymod_eq_sub (a b : ℚ) (hb : 0 < b) (h0 : b ≤ a) (h1 : a < 2 * b) : pymod a b = a - b := by
  have hfl : ⌊a / b⌋ = 1 := by
    rw [Int.floor_eq_iff (α := ℚ)]
    constructor
    · rw [Int.cast_one, le_div_iff₀ hb]
      linarith
    · rw [Int.cast_one, div_lt_iff₀ hb]
      linarith
  rw [pymod, hfl]
  push_cast
  ring

/-! ### Claims about the sector machinery -/

/-- C3: `sector_index` computes `⌊((direction + 11.25) mod 360) / 22.5⌋` with a
true mathematical (non-negative) modulus: every direction in
`[348.75, 360) ∪ [0, 11.25)` maps to sector 0 (so the 360°/0° boundary wraps,
`sector_index 0 = sector_index 360 = 0`), a negative direction such as `-5`
also gives the non-negative sector 0, `11.25` is the first direction of
sector 1, and `348.74` still lies in sector 15. -/
theorem claim_C3 :
    (∀ d : ℚ, 0 ≤ pymod (d + 11.25) 360) ∧
    (∀ d : ℚ, 348.75 ≤ d → d < 360 → sector_index d = 0) ∧
    (∀ d : ℚ, 0 ≤ d → d < 11.25 → sector_index d = 0) ∧
    sector_index 0 = 0 ∧ sector_index 360 = 0 ∧ sector_index (-5) = 0 ∧
    sector_index 11.25 = 1 ∧ sector_index 348.74 = 15 := by
  refine ⟨fun d => pymod_nonneg _ _ (by norm_num), ?_, ?_, ?_, ?_, ?_, ?_, ?_⟩
  · intro d h1 h2
    rw [sector_index, pymod_eq_sub _ _ (by norm_num) (by linarith) (by linarith)]
    rw [Int.floor_eq_zero_iff]
    constructor
    · apply div_nonneg _ (by norm_num)
      linarith
    · rw [div_lt_one (by norm_num)]
      linarith
  · intro d h1 h2
    rw [sector_index, pymod_eq_self _ _ (by norm_num) (by linarith) (by linarith)]
    rw [Int.floor_eq_zero_iff]
    constructor
    · apply div_nonneg (by linarith) (by norm_num)
    · rw [div_lt_one (by norm_num)]
      linarith
  all_goals norm_num [sector_index, pymod]

/-- Witness for C3 at the concrete directions 350 and 5. -/
theorem claim_C3_witness : sector_index 350 = 0 ∧ sector_index 5 = 0 :=
  ⟨claim_C3.2.1 350 (by norm_num) (by norm_num),
   claim_C3.2.2.1 5 (by norm_num) (by norm_num)⟩

/-- C4: `compute_Qupot` (spec name `compute_wind_power_transport`) returns the
sum over the input sequence of `(u ** 3.8 * dt) / 233847`, and returns exactly
0 on the empty sequence. -/
theorem claim_C4 (p38 : ℚ → ℚ) (ws : List ℚ) (dt : ℚ) :
    compute_Qupot p38 ws dt = (ws.map (fun u => p38 u * dt / 233847)).sum ∧
    compute_Qupot p38 [] dt = 0 := by
  constructor
  · rw [compute_Qupot, sum_map_div]
  · simp [compute_Qupot]

/-- C8: on wind-speed and wind-direction sequences of unequal length,
`compute_sector_transport` silently processes only the common prefix of length
`min (len speeds) (len directions)`: its result is the result on both inputs
truncated to that length, and no error is raised. -/
theorem claim_C8 (p38 : ℚ → ℚ) (ws wd : List ℚ) (dt : ℚ) :
    compute_sector_transport p38 ws wd dt =
      compute_sector_transport p38 (ws.take (min ws.length wd.length))
        (wd.take (min ws.length wd.length)) dt ∧
    (compute_sector_transport p38 ws wd dt).isSome = true := by
  constructor
  · rw [compute_sector_transport, compute_sector_transport, ← zip_take_min]
  · obtain ⟨l, hl, -, -, -⟩ := compute_sector_transport_spec p38 ws wd dt
    rw [hl]
    rfl

/-- C9: conservation of transport under sector decomposition — for equal-length
speed and direction sequences, the 16 sector buckets of
`compute_sector_transport` sum to `compute_Qupot` of the speeds. -/
theorem claim_C9 (p38 : ℚ → ℚ) (ws wd : List ℚ) (dt : ℚ) (h : ws.length = wd.length) :
    ∃ l, compute_sector_transport p38 ws wd dt = some l ∧
      l.sum = compute_Qupot p38 ws dt := by
  obtain ⟨l, hl, -, hsum, -⟩ := compute_sector_transport_spec p38 ws wd dt
  refine ⟨l, hl, ?_⟩
  rw [hsum, compute_Qupot, sum_map_div]
  have hfst : (ws.zip wd).map Prod.fst = ws := List.map_fst_zip ws wd (le_of_eq h)
  calc ((ws.zip wd).map fun ud => p38 ud.1 * dt / 233847).sum
      = (((ws.zip wd).map Prod.fst).map fun u => p38 u * dt / 233847).sum := by
        rw [List.map_map]
        rfl
    _ = (ws.map fun u => p38 u * dt / 233847).sum := by rw [hfst]

/-- Witness for C9 on a concrete two-sample series. -/
theorem claim_C9_witness :
    ∃ l, compute_sector_transport (fun u => u) [1, 2] [0, 90] 3600 = some l ∧
      l.sum = compute_Qupot (fun u => u) [1, 2] 3600 :=
  claim_C9 (fun u => u) [1, 2] [0, 90] 3600 rfl

/-- C10: `sector_index` always lands in `0..15`, so the bucket update inside
`compute_sector_transport` is always in bounds of the 16-entry profile and the
operation is total — it never hits the out-of-range (`IndexError`) branch. -/
theorem claim_C10 (d : ℚ) (p38 : ℚ → ℚ) (ws wd : List ℚ) (dt : ℚ) :
    (0 ≤ sector_index d ∧ sector_index d < 16) ∧
    (compute_sector_transport p38 ws wd dt).isSome = true := by
  refine ⟨⟨sector_index_nonneg d, sector_index_lt d⟩, ?_⟩
  obtain ⟨l, hl, -, -, -⟩ := compute_sector_transport_spec p38 ws wd dt
  rw [hl]
  rfl

/-! ### Claims about fence height and the transport record -/

/-- Counterexample to C1 as stated: in the `SnowDrift.py` variant, the
unsupported fence type `"carbon"` does not produce an error — the function
silently falls back to the default factor 8.5 and returns exactly the
height it computes for `"Wyoming"` (here `(8500 / 1000) / 8.5 = 1` under
the identity power function). -/
theorem claim_C1_counterexample :
    SnowDriftPage.compute_fence_height (fun x => x) 8500 "carbon" = 1 ∧
    SnowDriftPage.compute_fence_height (fun x => x) 8500 "Wyoming" = 1 := by
  constructor
  · rw [SnowDriftPage.compute_fence_height]
    simp only [if_neg (show ¬pyLower "carbon" = "wyoming" by decide),
      if_neg (show ¬pyLower "carbon" = "slat-and-wire" by decide),
      if_neg (show ¬pyLower "carbon" = "solid" by decide)]
    norm_num
  · rw [SnowDriftPage.compute_fence_height]
    simp only [if_pos (show pyLower "Wyoming" = "wyoming" by decide)]
    norm_num

/-- C1 (amended): for every fence type whose lowercase form is none of the
recognized spellings, the `compute_fence_height` of `C1_SnowDrift.py`
(and of the identical `8_SnowDrift.py`) raises the explicit
unsupported-fence-type error (`none`), while the `SnowDrift.py` variant
instead silently falls back to the Wyoming default factor 8.5. -/
theorem claim_C1 (hpow : ℚ → ℚ) (Qt : ℚ) (s : String)
    (h1 : pyLower s ≠ "wyoming") (h2 : pyLower s ≠ "slat-and-wire")
    (h3 : pyLower s ≠ "slat and wire") (h4 : pyLower s ≠ "solid") :
    compute_fence_height hpow Qt s = none ∧
    SnowDriftPage.compute_fence_height hpow Qt s = hpow (Qt / 1000 / 8.5) := by
  constructor
  · rw [compute_fence_height]
    simp only [if_neg h1, if_neg (not_or.mpr ⟨h2, h3⟩), if_neg h4]
  · rw [SnowDriftPage.compute_fence_height]
    simp only [if_neg h1, if_neg h2, if_neg h4]

/-- Witness for C1 (amended) at the concrete unsupported type `"carbon"`. -/
theorem claim_C1_witness :
    compute_fence_height (fun x => x) 8500 "carbon" = none ∧
    SnowDriftPage.compute_fence_height (fun x => x) 8500 "carbon" =
      (fun x => x) ((8500 : ℚ) / 1000 / 8.5) :=
  claim_C1 (fun x => x) 8500 "carbon" (by decide) (by decide) (by decide) (by decide)

/-- C2: for positive `T`, `F`, non-negative `Swe` and non-negative wind
speeds, `compute_snow_transport` returns `Qspot = 0.5 * T * Swe` and
`Srwe = theta * Swe`; when `Qupot > Qspot` strictly it is classified
snowfall-controlled with `Qinf = 0.5 * T * Srwe`, otherwise (including at
exact equality) wind-controlled with `Qinf = Qupot`; and
`Qt = Qinf * (1 - 0.14 ** (F / T))`. -/
theorem claim_C2 (p38 pow014 : ℚ → ℚ) (T F theta Swe dt : ℚ) (ws : List ℚ)
    (hT : 0 < T) (hF : 0 < F) (hSwe : 0 ≤ Swe) (hws : ∀ u ∈ ws, 0 ≤ u) :
    (compute_snow_transport p38 pow014 T F theta Swe ws dt).Qspot = 0.5 * T * Swe ∧
    (compute_snow_transport p38 pow014 T F theta Swe ws dt).Srwe = theta * Swe ∧
    (compute_Qupot p38 ws dt > 0.5 * T * Swe →
      (compute_snow_transport p38 pow014 T F theta Swe ws dt).control =
          Control.snowfallControlled ∧
      (compute_snow_transport p38 pow014 T F theta Swe ws dt).Qinf =
        0.5 * T * (compute_snow_transport p38 pow014 T F theta Swe ws dt).Srwe) ∧
    (compute_Qupot p38 ws dt ≤ 0.5 * T * Swe →
      (compute_snow_transport p38 pow014 T F theta Swe ws dt).control =
          Control.windControlled ∧
      (compute_snow_transport p38 pow014 T F theta Swe ws dt).Qinf =
        compute_Qupot p38 ws dt) ∧
    (compute_snow_transport p38 pow014 T F theta Swe ws dt).Qt =
      (compute_snow_transport p38 pow014 T F theta Swe ws dt).Qinf *
        (1 - pow014 (F / T)) := by
  by_cases hcmp : compute_Qupot p38 ws dt > 0.5 * T * Swe
  · refine ⟨rfl, rfl, fun _ => ⟨?_, ?_⟩, fun hle => absurd hcmp (not_lt.mpr hle), rfl⟩ <;>
      simp [compute_snow_transport, hcmp]
  · refine ⟨rfl, rfl, fun hgt => absurd hgt hcmp, fun _ => ⟨?_, ?_⟩, rfl⟩ <;>
      simp [compute_snow_transport, hcmp]

/-- Witness for C2 on a concrete configuration. -/
theorem claim_C2_witness :
    (compute_snow_transport (fun _ => 0) (fun _ => 0) 3000 30000 (1/2) 2 [5] 3600).Qspot =
        0.5 * 3000 * 2 ∧
    (compute_snow_transport (fun _ => 0) (fun _ => 0) 3000 30000 (1/2) 2 [5] 3600).Srwe =
        (1/2) * 2 ∧
    (compute_Qupot (fun _ => 0) [5] 3600 > 0.5 * 3000 * 2 →
      (compute_snow_transport (fun _ => 0) (fun _ => 0) 3000 30000 (1/2) 2 [5] 3600).control =
          Control.snowfallControlled ∧
      (compute_snow_transport (fun _ => 0) (fun _ => 0) 3000 30000 (1/2) 2 [5] 3600).Qinf =
        0.5 * 3000 *
          (compute_snow_transport (fun _ => 0) (fun _ => 0) 3000 30000 (1/2) 2 [5] 3600).Srwe) ∧
    (compute_Qupot (fun _ => 0) [5] 3600 ≤ 0.5 * 3000 * 2 →
      (compute_snow_transport (fun _ => 0) (fun _ => 0) 3000 30000 (1/2) 2 [5] 3600).control =
          Control.windControlled ∧
      (compute_snow_transport (fun _ => 0) (fun _ => 0) 3000 30000 (1/2) 2 [5] 3600).Qinf =
        compute_Qupot (fun _ => 0) [5] 3600) ∧
    (compute_snow_transport (fun _ => 0) (fun _ => 0) 3000 30000 (1/2) 2 [5] 3600).Qt =
      (compute_snow_transport (fun _ => 0) (fun _ => 0) 3000 30000 (1/2) 2 [5] 3600).Qinf *
        (1 - (fun _ => (0:ℚ)) ((30000:ℚ) / 3000)) :=
  claim_C2 (fun _ => 0) (fun _ => 0) 3000 30000 (1/2) 2 3600 [5]
    (by norm_num) (by norm_num) (by norm_num)
    (by intro u hu; rw [List.mem_singleton] at hu; rw [hu]; norm_num)

/-! ### Grouping lemmas -/

theorem dedup_const {α : Type} [DecidableEq α] (a : α) (l : List α)
    (hne : l ≠ []) (h : ∀ x ∈ l, x = a) : l.dedup = [a] := by
  have hnd : l.dedup.Nodup := l.nodup_dedup
  have hmem : ∀ x ∈ l.dedup, x = a := fun x hx => h x (List.mem_dedup.mp hx)
  cases hd : l.dedup with
  | nil =>
    obtain ⟨x, hx⟩ := List.exists_mem_of_ne_nil l hne
    have hxd : x ∈ l.dedup := List.mem_dedup.mpr hx
    rw [hd] at hxd
    exact absurd hxd (List.not_mem_nil x)
  | cons y ys =>
    rw [hd] at hnd hmem
    have hy : y = a := hmem y (List.mem_cons_self y ys)
    have hys : ys = [] := by
      cases ys with
      | nil => rfl
      | cons z zs =>
        have hz : z = a := hmem z (List.mem_cons_of_mem _ (List.mem_cons_self z zs))
        have hmemy : y ∈ z :: zs := by
          rw [hy, ← hz]
          exact List.mem_cons_self z zs
        exact absurd hmemy (List.nodup_cons.mp hnd).1
    rw [hy, hys]

theorem groupByKey_const {κ : Type} [LinearOrder κ] (key : HourlyRow → κ)
    (rows : List HourlyRow) (k : κ) (hne : rows ≠ [])
    (h : ∀ r ∈ rows, key r = k) : groupByKey key rows = [(k, rows)] := by
  have hmapne : rows.map key ≠ [] := by simpa using hne
  have hmapconst : ∀ x ∈ rows.map key, x = k := by
    intro x hx
    obtain ⟨r, hr, rfl⟩ := List.mem_map.mp hx
    exact h r hr
  rw [groupByKey, dedup_const k _ hmapne hmapconst]
  have hfil : rows.filter (fun r => decide (key r = k)) = rows :=
    List.filter_eq_self.mpr (fun r hr => by simp [h r hr])
  simp [sortKeys, insertSorted, hfil]

theorem mapM_option_eq {α β : Type} (f : α → Option β) (g : α → β) :
    ∀ l : List α, (∀ a ∈ l, f a = some (g a)) → l.mapM f = some (l.map g)
  | [], _ => rfl
  | a :: l, h => by
    have ha : f a = some (g a) := h a (List.mem_cons_self a l)
    have hl : l.mapM f = some (l.map g) :=
      mapM_option_eq f g l (fun x hx => h x (List.mem_cons_of_mem _ hx))
    rw [List.mapM_cons, ha, hl]
    rfl

theorem bucketProfile_length (p38 : ℚ → ℚ) (dt : ℚ) (pairs : List (ℚ × ℚ)) :
    (bucketProfile p38 dt pairs).length = 16 := by
  rw [bucketProfile, List.length_map, List.length_range]

theorem bucketProfile_getD (p38 : ℚ → ℚ) (dt : ℚ) (pairs : List (ℚ × ℚ)) (i : ℕ)
    (hi : i < 16) : (bucketProfile p38 dt pairs).getD i 0 = bucketSum p38 dt pairs (i : ℤ) := by
  have h : i < (bucketProfile p38 dt pairs).length := by
    rw [bucketProfile_length]
    exact hi
  rw [List.getD_eq_getElem?_getD, List.getElem?_eq_getElem h, Option.getD_some]
  simp only [bucketProfile, List.getElem_map, List.getElem_range]

theorem compute_sector_transport_eq (p38 : ℚ → ℚ) (ws wd : List ℚ) (dt : ℚ) :
    compute_sector_transport p38 ws wd dt = some (bucketProfile p38 dt (ws.zip wd)) := by
  obtain ⟨l, hl, h16, -, hbuck⟩ := compute_sector_transport_spec p38 ws wd dt
  rw [hl]
  congr 1
  apply List.ext_getElem
  · rw [h16, bucketProfile_length]
  · intro i h1 h2
    have hi16 : i < 16 := by rwa [h16] at h1
    have hb := hbuck (i : ℤ) (by omega) (by exact_mod_cast hi16)
    have htn : ((i : ℤ)).toNat = i := by omega
    rw [htn] at hb
    have hldg : l.getD i 0 = l[i] := by
      rw [List.getD_eq_getElem?_getD, List.getElem?_eq_getElem h1]
      rfl
    have hpdg : (bucketProfile p38 dt (ws.zip wd)).getD i 0 =
        (bucketProfile p38 dt (ws.zip wd))[i] := by
      rw [List.getD_eq_getElem?_getD, List.getElem?_eq_getElem h2]
      rfl
    rw [← hldg, ← hpdg, hb, bucketProfile_getD _ _ _ _ hi16]

theorem meanProfiles_length (ls : List (List ℚ)) : (meanProfiles ls).length = 16 := by
  rw [meanProfiles, List.length_map, List.length_range]

theorem meanProfiles_getD (ls : List (List ℚ)) (i : ℕ) (hi : i < 16) :
    (meanProfiles ls).getD i 0 = (ls.map (fun l => l.getD i 0)).sum / ls.length := by
  have h : i < (meanProfiles ls).length := by
    rw [meanProfiles_length]
    exact hi
  rw [List.getD_eq_getElem?_getD, List.getElem?_eq_getElem h, Option.getD_some]
  simp only [meanProfiles, List.getElem_map, List.getElem_range]

/-- C5: `compute_average_sector` never fails and returns the elementwise
unweighted arithmetic mean over seasons of the per-season 16-sector
transport profiles computed from all of that season's wind samples (each
season contributes with equal weight regardless of its length), and a
profile of 16 zeros when the series contains no seasons. -/
theorem claim_C5 (p38 : ℚ → ℚ) (rows : List HourlyRow) :
    ∃ prof, compute_average_sector p38 rows = some prof ∧ prof.length = 16 ∧
      (groupBySeason rows = [] → prof = List.replicate 16 0) ∧
      (∀ i : ℕ, i < 16 →
        prof.getD i 0 * (groupBySeason rows).length =
          ((groupBySeason rows).map (fun g =>
            bucketSum p38 3600 ((g.2.map HourlyRow.windspeed_10m).zip
              (g.2.map HourlyRow.winddirection_10m)) (i : ℤ))).sum) := by
  have hmap := mapM_option_eq
    (fun g : ℤ × List HourlyRow => compute_sector_transport p38
      (g.2.map HourlyRow.windspeed_10m) (g.2.map HourlyRow.winddirection_10m) 3600)
    (fun g : ℤ × List HourlyRow => bucketProfile p38 3600
      ((g.2.map HourlyRow.windspeed_10m).zip (g.2.map HourlyRow.winddirection_10m)))
    (groupBySeason rows)
    (fun g _ => compute_sector_transport_eq p38 _ _ 3600)
  rw [compute_average_sector, hmap]
  by_cases hg : groupBySeason rows = []
  · refine ⟨List.replicate 16 0, ?_, by simp, fun _ => rfl, ?_⟩
    · rw [hg]
      rfl
    · intro i hi
      rw [hg]
      simp
  · have hne : ((groupBySeason rows).map (fun g : ℤ × List HourlyRow => bucketProfile p38 3600
        ((g.2.map HourlyRow.windspeed_10m).zip (g.2.map HourlyRow.winddirection_10m)))).isEmpty
        = false := by
      rw [List.isEmpty_eq_false_iff_exists_mem]
      obtain ⟨g, hgm⟩ := List.exists_mem_of_ne_nil _ hg
      exact ⟨_, List.mem_map_of_mem _ hgm⟩
    refine ⟨meanProfiles ((groupBySeason rows).map (fun g : ℤ × List HourlyRow =>
        bucketProfile p38 3600 ((g.2.map HourlyRow.windspeed_10m).zip
          (g.2.map HourlyRow.winddirection_10m)))),
      ?_, ?_, fun h => absurd h hg, ?_⟩
    · rw [Option.map_some']
      rw [hne]
      simp only [Bool.false_eq_true, if_false]
    · rw [meanProfiles_length]
    · intro i hi
      rw [meanProfiles_getD _ _ hi, List.map_map, List.length_map]
      have hlen0 : ((groupBySeason rows).length : ℚ) ≠ 0 := by
        have : (groupBySeason rows).length ≠ 0 := by
          intro h0
          exact hg (List.length_eq_zero.mp h0)
        exact_mod_cast this
      rw [div_mul_cancel₀ _ hlen0]
      congr 1
      apply List.map_congr_left
      intro g hgm
      simp only [Function.comp_apply]
      exact bucketProfile_getD _ _ _ _ hi

/-- Witness for C5 on the empty series: no seasons, so the profile is 16
zeros. -/
theorem claim_C5_witness :
    compute_average_sector (fun u => u) [] = some (List.replicate 16 0) := by
  obtain ⟨prof, h1, -, h3, -⟩ := claim_C5 (fun u => u) []
  rw [← h3 rfl]
  exact h1

/-- C6: every monthly record emitted by `compute_year_and_month_results`
comes from a (season, month) pair whose rows are non-empty (at least one
wind sample) and whose summed snow-water equivalent is non-zero — and
strictly positive whenever precipitation values are non-negative; a
(season, month) pair with zero total Swe or no samples is omitted
entirely, never emitted as a zero-filled row. -/
theorem claim_C6 (p38 pow014 : ℚ → ℚ) (rows : List HourlyRow) (T F theta : ℚ)
    (hprecip : ∀ r ∈ rows, 0 ≤ r.precipitation)
    (mr : MonthlyResult)
    (hmr : mr ∈ (compute_year_and_month_results p38 pow014 rows T F theta).2) :
    ∃ s : ℤ, ∃ m : ℕ,
      mr.season = seasonLabel s ∧ mr.month = m ∧
      seasonMonthRows rows s m ≠ [] ∧
      0 < ((seasonMonthRows rows s m).map Swe_hourly).sum ∧
      mr.res = compute_snow_transport p38 pow014 T F theta
        (((seasonMonthRows rows s m).map Swe_hourly).sum)
        ((seasonMonthRows rows s m).map HourlyRow.windspeed_10m) 3600 := by
  simp only [compute_year_and_month_results] at hmr
  rw [List.mem_flatMap] at hmr
  obtain ⟨g, hgf, hmg⟩ := hmr
  have hgmem : g ∈ groupBySeason rows := (List.mem_filter.mp hgf).1
  rw [groupBySeason, groupByKey] at hgmem
  obtain ⟨s, hs, rfl⟩ := List.mem_map.mp hgmem
  rw [List.mem_filterMap] at hmg
  obtain ⟨mg, hmgmem, hsome⟩ := hmg
  rw [groupByMonth, groupByKey] at hmgmem
  obtain ⟨m, hm, rfl⟩ := List.mem_map.mp hmgmem
  have hrows : (rows.filter (fun r => decide (season_year r.time = s))).filter
      (fun r => decide (r.time.month = m)) = seasonMonthRows rows s m := by
    rw [seasonMonthRows, List.filter_filter]
  refine ⟨s, m, ?_⟩
  simp only [hrows] at hsome
  split_ifs at hsome with hcond
  push_neg at hcond
  obtain ⟨hsum, hws⟩ := hcond
  have hmr_eq : mr = MonthlyResult.mk (seasonLabel s) m
      (compute_snow_transport p38 pow014 T F theta
        (((seasonMonthRows rows s m).map Swe_hourly).sum)
        ((seasonMonthRows rows s m).map HourlyRow.windspeed_10m) 3600) :=
    (Option.some.inj hsome).symm
  have hne : seasonMonthRows rows s m ≠ [] := by
    intro h0
    apply hws
    rw [h0]
    rfl
  have hnonneg : (0:ℚ) ≤ ((seasonMonthRows rows s m).map Swe_hourly).sum := by
    apply List.sum_nonneg
    intro x hx
    obtain ⟨r, hr, rfl⟩ := List.mem_map.mp hx
    have hrmem : r ∈ rows := (List.mem_filter.mp hr).1
    rw [Swe_hourly]
    split_ifs
    · exact hprecip r hrmem
    · exact le_refl 0
  refine ⟨by rw [hmr_eq], by rw [hmr_eq], hne, lt_of_le_of_ne hnonneg (Ne.symm hsum), by rw [hmr_eq]⟩

/-- Witness for C6: on a single cold snowy December 2020 hour, the one
emitted monthly record has positive monthly Swe and a non-empty sample
list. -/
theorem claim_C6_witness :
    ∃ s : ℤ, ∃ m : ℕ,
      (MonthlyResult.mk (seasonLabel 2020) 12
        (compute_snow_transport (fun _ => (0:ℚ)) (fun _ => (0:ℚ)) 3000 30000 (1/2)
          2 [5] 3600)).season = seasonLabel s ∧
      (MonthlyResult.mk (seasonLabel 2020) 12
        (compute_snow_transport (fun _ => (0:ℚ)) (fun _ => (0:ℚ)) 3000 30000 (1/2)
          2 [5] 3600)).month = m ∧
      seasonMonthRows [sampleRowDec] s m ≠ [] ∧
      0 < ((seasonMonthRows [sampleRowDec] s m).map Swe_hourly).sum ∧
      (MonthlyResult.mk (seasonLabel 2020) 12
        (compute_snow_transport (fun _ => (0:ℚ)) (fun _ => (0:ℚ)) 3000 30000 (1/2)
          2 [5] 3600)).res = compute_snow_transport (fun _ => (0:ℚ)) (fun _ => (0:ℚ))
        3000 30000 (1/2)
        (((seasonMonthRows [sampleRowDec] s m).map Swe_hourly).sum)
        ((seasonMonthRows [sampleRowDec] s m).map HourlyRow.windspeed_10m) 3600 := by
  apply claim_C6 (fun _ => (0:ℚ)) (fun _ => (0:ℚ)) [sampleRowDec] 3000 30000 (1/2)
  · intro r hr
    rw [List.mem_singleton] at hr
    rw [hr, sampleRowDec]
    norm_num
  · have hseason : groupBySeason [sampleRowDec] = [(2020, [sampleRowDec])] := by
      rw [groupBySeason]
      apply groupByKey_const _ _ _ (List.cons_ne_nil _ _)
      intro r hr
      rw [List.mem_singleton] at hr
      rw [hr]
      rfl
    have hmonth : groupByMonth [sampleRowDec] = [(12, [sampleRowDec])] := by
      rw [groupByMonth]
      apply groupByKey_const _ _ _ (List.cons_ne_nil _ _)
      intro r hr
      rw [List.mem_singleton] at hr
      rw [hr]
      rfl
    rw [compute_year_and_month_results, hseason]
    simp only [List.filter_cons, List.filter_nil, List.isEmpty_cons, Bool.not_false,
      if_pos, List.flatMap_cons, List.flatMap_nil, List.append_nil, hmonth,
      List.filterMap_cons, List.filterMap_nil]
    norm_num [sampleRowDec, Swe_hourly]

/-- C7: on a non-empty hourly series whose timestamps (with valid month
and day fields) all lie between 1 July of year `Y` and 30 June of year
`Y + 1` inclusive, every sample gets season key `Y`
(`calendar_year` if `month ≥ 7`, else `calendar_year - 1`) and
`compute_year_and_month_results` emits exactly one seasonal result,
labelled `"Y-(Y+1)"`. -/
theorem claim_C7 (p38 pow014 : ℚ → ℚ) (rows : List HourlyRow) (T F theta : ℚ) (Y : ℤ)
    (hne : rows ≠ [])
    (hmonth : ∀ r ∈ rows, 1 ≤ r.time.month ∧ r.time.month ≤ 12)
    (hday : ∀ r ∈ rows, 1 ≤ r.time.day)
    (hwin : ∀ r ∈ rows, dateLE (Timestamp.mk Y 7 1) r.time ∧
      dateLE r.time (Timestamp.mk (Y + 1) 6 30)) :
    (∀ r ∈ rows, season_year r.time = Y) ∧
    (compute_year_and_month_results p38 pow014 rows T F theta).1 =
      [SeasonalResult.mk (seasonLabel Y)
        (compute_snow_transport p38 pow014 T F theta
          ((rows.map Swe_hourly).sum) (rows.map HourlyRow.windspeed_10m) 3600)] := by
  have hseasonkey : ∀ r ∈ rows, season_year r.time = Y := by
    intro r hr
    obtain ⟨hm1, hm2⟩ := hmonth r hr
    obtain ⟨hlo, hhi⟩ := hwin r hr
    have hd := hday r hr
    simp only [dateLE] at hlo hhi
    rw [season_year]
    split_ifs with hif <;> omega
  refine ⟨hseasonkey, ?_⟩
  have hg : groupBySeason rows = [(Y, rows)] := by
    rw [groupBySeason]
    exact groupByKey_const _ _ _ hne hseasonkey
  have hemp : rows.isEmpty = false := by
    cases rows with
    | nil => exact absurd rfl hne
    | cons a l => rfl
  rw [compute_year_and_month_results, hg]
  simp only [List.filter_cons, List.filter_nil, hemp, Bool.not_false, if_pos,
    List.map_cons, List.map_nil]

/-- Witness for C7: two rows on the boundary days of the 2020–2021 season. -/
theorem claim_C7_witness :
    (∀ r ∈ [sampleRowJul, sampleRowJun], season_year r.time = 2020) ∧
    (compute_year_and_month_results (fun _ => (0:ℚ)) (fun _ => (0:ℚ))
        [sampleRowJul, sampleRowJun] 3000 30000 (1/2)).1 =
      [SeasonalResult.mk (seasonLabel 2020)
        (compute_snow_transport (fun _ => (0:ℚ)) (fun _ => (0:ℚ)) 3000 30000 (1/2)
          (([sampleRowJul, sampleRowJun].map Swe_hourly).sum)
          ([sampleRowJul, sampleRowJun].map HourlyRow.windspeed_10m) 3600)] := by
  apply claim_C7 (fun _ => (0:ℚ)) (fun _ => (0:ℚ)) [sampleRowJul, sampleRowJun]
    3000 30000 (1/2) 2020 (List.cons_ne_nil _ _)
  · intro r hr
    simp only [List.mem_cons, List.not_mem_nil, or_false] at hr
    rcases hr with rfl | rfl <;> exact ⟨by norm_num [sampleRowJul, sampleRowJun],
      by norm_num [sampleRowJul, sampleRowJun]⟩
  · intro r hr
    simp only [List.mem_cons, List.not_mem_nil, or_false] at hr
    rcases hr with rfl | rfl <;> norm_num [sampleRowJul, sampleRowJun]
  · intro r hr
    simp only [List.mem_cons, List.not_mem_nil, or_false] at hr
    rcases hr with rfl | rfl <;> exact ⟨by decide, by decide⟩
